import Mathlib

/- Verification development for the adaptive retrieval-and-caching subsystem of
the ai-pdf-rag repository.  JavaScript numbers are modelled as exact rationals
(real numbers where a square root is taken); JavaScript Maps are modelled as
association lists with unique keys; fallible external calls (embedding gateway,
generative model, datastore) are modelled as environment records carrying the
outcome of each call. -/

namespace AiPdfRag

/- ------------------------------------------------------------------ -/
/- Query analysis data model (src/backend/src/types/queryTypes.ts)     -/
/- ------------------------------------------------------------------ -/

/-- Query category union type of QueryAnalysis. -/
inductive Category where
  | factual
  | analytical
  | comparative
  | procedural
  | conceptual
  deriving DecidableEq

/-- Query complexity union type of QueryAnalysis. -/
inductive Complexity where
  | simple
  | moderate
  | complex
  deriving DecidableEq

/-- Search strategy union type: semantic, hybrid, keyword or multi_step. -/
inductive Strategy where
  | semantic
  | hybrid
  | keyword
  | multi_step
  deriving DecidableEq

/-- String value of a strategy, as carried in the TypeScript source. -/
def Strategy.name : Strategy → String
  | .semantic => "semantic"
  | .hybrid => "hybrid"
  | .keyword => "keyword"
  | .multi_step => "multi_step"

/-- The fields of a QueryAnalysis that the embedded code consumes.  The source
record carries further informational fields (intent, domain, followups,
estimated_response_time) that no embedded function reads. -/
structure QueryAnalysis where
  category : Category
  complexity : Complexity
  confidence : ℚ
  keywords : List String
  requires_multiple_docs : Bool
  deriving DecidableEq

/-- QueryAnalyzer.determineSearchStrategy
(src/backend/src/services/queryAnalyzer.ts lines 341-346): multi_step when the
analysis requires multiple documents, hybrid for complex queries, keyword for
simple factual queries, and semantic in every remaining case. -/
def determineSearchStrategy (analysis : QueryAnalysis) : Strategy :=
  if analysis.requires_multiple_docs then .multi_step
  else if analysis.complexity = .complex then .hybrid
  else if analysis.category = .factual ∧ analysis.complexity = .simple then .keyword
  else .semantic

/-- HybridRetriever.determineOptimalStrategy (src/unnamed/part_005 lines
162-172): hybrid when no analysis is supplied; otherwise multi_step, hybrid,
keyword, semantic for conceptual, and hybrid as the final default. -/
def determineOptimalStrategy (query : String) (analysis : Option QueryAnalysis) : Strategy :=
  match analysis with
  | none => .hybrid
  | some a =>
    if a.requires_multiple_docs then .multi_step
    else if a.complexity = .complex then .hybrid
    else if a.category = .factual ∧ a.complexity = .simple then .keyword
    else if a.category = .conceptual then .semantic
    else .hybrid

/-- Decision table written from the words of spec section 4.1, for comparison
with the two strategy-decision sites in the code: multi_step when multiple
documents are required, else hybrid when complex, else keyword for simple
factual, else semantic for conceptual, else hybrid. -/
def specStrategyTable (c : Category) (x : Complexity) (m : Bool) : Strategy :=
  if m then .multi_step
  else if x = .complex then .hybrid
  else if c = .factual ∧ x = .simple then .keyword
  else if c = .conceptual then .semantic
  else .hybrid

/- ------------------------------------------------------------------ -/
/- Response quality evaluator (responseQualityEvaluator.ts)            -/
/- ------------------------------------------------------------------ -/

/-- QualityScore record with its seven scored dimensions and the evaluator
confidence (src/backend/src/types/qualityTypes.ts). -/
structure QualityScore where
  overall : ℚ
  relevance : ℚ
  accuracy : ℚ
  completeness : ℚ
  clarity : ℚ
  coherence : ℚ
  sourceUtilization : ℚ
  confidence : ℚ
  deriving DecidableEq

/-- Helper building a QualityScore whose seven dimensions all carry the same
value, used to write concrete test points compactly. -/
def mkUniformScore (x : ℚ) : QualityScore :=
  ⟨x, x, x, x, x, x, x, x⟩

/-- ResponseQualityEvaluator.shouldCacheResponse
(src/backend/src/services/responseQualityEvaluator.ts lines 456-459): cache
high-quality responses or slow responses. -/
def shouldCacheResponse (qualityScore : QualityScore) (processingTime : ℚ) : Bool :=
  decide (qualityScore.overall ≥ 0.75) || decide (processingTime ≥ 5000)

/- ------------------------------------------------------------------ -/
/- Cluster-count heuristic (DocumentClusteringService)                 -/
/- ------------------------------------------------------------------ -/

/-- DocumentClusteringService.determineOptimalClusterCount
(src/backend/src/services/responseQualityEvaluator.ts lines 1872-1878).  The
source computes Math.ceil over JavaScript numbers; here the ceiling is taken
over rationals. -/
def determineOptimalClusterCount (numDocuments : ℕ) : ℕ :=
  if numDocuments < 5 then 2
  else if numDocuments < 10 then 3
  else if numDocuments < 20 then ⌈(numDocuments : ℚ) / 4⌉₊
  else min ⌈(numDocuments : ℚ) / 5⌉₊ 10

/-- Duck-typed quality-score object as it arrives from JSON parsing of model
output (an untrusted payload): every recognised field is optional, with
undefined and null both modelled as none.  Non-numeric payloads of the dynamic
original are outside this rational model. -/
structure RawScore where
  overall : Option ℚ := none
  Overall : Option ℚ := none
  relevance : Option ℚ := none
  Relevance : Option ℚ := none
  accuracy : Option ℚ := none
  Accuracy : Option ℚ := none
  completeness : Option ℚ := none
  Completeness : Option ℚ := none
  clarity : Option ℚ := none
  Clarity : Option ℚ := none
  coherence : Option ℚ := none
  Coherence : Option ℚ := none
  sourceUtilization : Option ℚ := none
  SourceUtilization : Option ℚ := none
  source_utilization : Option ℚ := none
  confidence : Option ℚ := none
  Confidence : Option ℚ := none
  deriving DecidableEq

/-- JavaScript logical-or fallback chain on duck-typed numeric fields: an
absent value defers to the alternative, and a present value 0 is falsy and
also defers to the alternative. -/
def jsOr (a b : Option ℚ) : Option ℚ :=
  match a with
  | none => b
  | some x => if x = 0 then b else some x

/-- ResponseQualityEvaluator.clampScore (responseQualityEvaluator.ts lines
436-441): a missing value gives the default 0.5, numbers are clamped into the
unit interval. -/
def clampScore (score : Option ℚ) : ℚ :=
  match score with
  | none => 0.5
  | some num => max 0 (min 1 num)

/-- Default score returned by validateQualityScore for a non-object input
(responseQualityEvaluator.ts lines 356-369): every dimension 0.7. -/
def defaultQualityScore : QualityScore := mkUniformScore 0.7

/-- ResponseQualityEvaluator.validateQualityScore (responseQualityEvaluator.ts
lines 354-381): each dimension is the JavaScript-or of the lowercase and
capitalised fields (sourceUtilization also falls back to source_utilization),
passed through clampScore. -/
def validateQualityScore (scoreObj : Option RawScore) : QualityScore :=
  match scoreObj with
  | none => defaultQualityScore
  | some s =>
    { overall := clampScore (jsOr s.overall s.Overall)
      relevance := clampScore (jsOr s.relevance s.Relevance)
      accuracy := clampScore (jsOr s.accuracy s.Accuracy)
      completeness := clampScore (jsOr s.completeness s.Completeness)
      clarity := clampScore (jsOr s.clarity s.Clarity)
      coherence := clampScore (jsOr s.coherence s.Coherence)
      sourceUtilization :=
        clampScore (jsOr (jsOr s.sourceUtilization s.SourceUtilization)
          s.source_utilization)
      confidence := clampScore (jsOr s.confidence s.Confidence) }

/-- ResponseQualityEvaluator.createFallbackQualityScore
(responseQualityEvaluator.ts lines 443-454): 0.6 on every dimension with
confidence 0.3. -/
def createFallbackQualityScore : QualityScore :=
  ⟨0.6, 0.6, 0.6, 0.6, 0.6, 0.6, 0.6, 0.3⟩

/-- Fallback object supplied by safeJSONParse at the performAIEvaluation call
site when the model content is not parseable JSON (responseQualityEvaluator.ts
lines 418-427): lowercase fields all 0.7, confidence 0.5. -/
def parseFallbackRawScore : RawScore :=
  { overall := some 0.7, relevance := some 0.7, accuracy := some 0.7,
    completeness := some 0.7, clarity := some 0.7, coherence := some 0.7,
    sourceUtilization := some 0.7, confidence := some 0.5 }

/-- Outcome of the structured-scoring gateway call inside performAIEvaluation:
the model invocation may throw, the returned content may fail JSON parsing, or
it parses to a duck-typed score object. -/
inductive AIOutcome where
  | invokeError
  | parseFailure
  | parsed (raw : RawScore)
  deriving DecidableEq

/-- ResponseQualityEvaluator.performAIEvaluation (responseQualityEvaluator.ts
lines 384-434): a thrown gateway call yields the fixed fallback score, a parse
failure validates the safeJSONParse fallback object, and parsed content is
validated. -/
def performAIEvaluation (outcome : AIOutcome) : QualityScore :=
  match outcome with
  | .invokeError => createFallbackQualityScore
  | .parseFailure => validateQualityScore (some parseFallbackRawScore)
  | .parsed raw => validateQualityScore (some raw)

/-- Environment of one evaluateResponse call: whether the CommonJS require
call inside generateEvaluationHash raises, the quality-cache lookup result
(the analysis payload of a hit, if any) and the gateway outcome. -/
structure EvalEnv where
  requireCryptoThrows : Bool
  cachedAnalysis : Option RawScore
  ai : AIOutcome
  deriving DecidableEq

/-- Quality score and cache-worthiness decision returned by evaluateResponse. -/
structure EvalOutcome where
  qualityScore : QualityScore
  shouldCache : Bool
  deriving DecidableEq

/-- Fallback quality score built in the outer catch of evaluateResponse
(responseQualityEvaluator.ts lines 167-176): every dimension 0.7 with
confidence 0.3. -/
def catchFallbackScore : QualityScore :=
  ⟨0.7, 0.7, 0.7, 0.7, 0.7, 0.7, 0.7, 0.3⟩

/-- ResponseQualityEvaluator.evaluateResponse (responseQualityEvaluator.ts
lines 89-192), projected to the quality score used and the shouldCache
decision.  The first operation inside the try block, generateEvaluationHash
(line 104), calls require of crypto (line 462).  The backend runs as an ES
module (index.ts line 17 reads import.meta.url, and every relative import
carries a .js extension), where require is not defined, so this call raises a
ReferenceError on every invocation and control reaches the outer catch (lines
163-191), which returns the fixed 0.7 fallback evaluation with shouldCache
false.  When the hash call does not raise, the try body runs: its remaining
fallible sub-operations (cache read and write, metric update, database
persistence) trap their own errors internally, a gateway or parse failure
surfaces only through the performAIEvaluation fallbacks, and the decision is
the shouldCacheResponse policy on the score used. -/
def evaluateResponse (env : EvalEnv) (processingTime : ℚ) : EvalOutcome :=
  if env.requireCryptoThrows then
    ⟨catchFallbackScore, false⟩
  else
    let qualityScore :=
      match env.cachedAnalysis with
      | some raw => validateQualityScore (some raw)
      | none => performAIEvaluation env.ai
    ⟨qualityScore, shouldCacheResponse qualityScore processingTime⟩

/- ------------------------------------------------------------------ -/
/- Hybrid retriever (src/unnamed/part_005)                             -/
/- ------------------------------------------------------------------ -/

/-- Raw row returned by the datastore; absent columns are defaulted during
result mapping (part_005 lines 73-85). -/
structure Row where
  content : Option String := none
  filename : Option String := none
  chunk_index : Option ℕ := none
  uploaded_at : Option String := none
  relevance_score : Option ℚ := none
  search_method : Option String := none
  semantic_similarity : Option ℚ := none
  keyword_relevance : Option ℚ := none
  deriving DecidableEq

/-- SearchResult record of the retriever, with the metadata object flattened. -/
structure SearchResult where
  pageContent : String
  filename : String
  chunkIndex : ℕ
  uploadedAt : String
  relevanceScore : ℚ
  searchMethod : String
  semanticScore : Option ℚ
  keywordScore : Option ℚ
  deriving DecidableEq

/-- SearchMetrics record returned with every retrieval. -/
structure SearchMetrics where
  totalResults : ℕ
  searchTime : ℚ
  strategy : String
  semanticWeight : ℚ
  keywordWeight : ℚ
  queryOptimization : Bool
  deriving DecidableEq

/-- JavaScript falsy-or on an optional string column: null, undefined and the
empty string all defer to the default. -/
def jsOrStr (a : Option String) (d : String) : String :=
  match a with
  | none => d
  | some s => if s = "" then d else s

/-- JavaScript falsy-or on an optional numeric column. -/
def jsOrNat (a : Option ℕ) (d : ℕ) : ℕ :=
  match a with
  | none => d
  | some n => if n = 0 then d else n

/-- JavaScript falsy-or on an optional rational column. -/
def jsOrRat (a : Option ℚ) (d : ℚ) : ℚ :=
  match a with
  | none => d
  | some q => if q = 0 then d else q

/-- Result mapping of hybridSearch (part_005 lines 73-85). -/
def mapRow (nowIso : String) (row : Row) : SearchResult :=
  { pageContent := jsOrStr row.content ""
    filename := jsOrStr row.filename "unknown_document.pdf"
    chunkIndex := jsOrNat row.chunk_index 0
    uploadedAt := jsOrStr row.uploaded_at nowIso
    relevanceScore := jsOrRat row.relevance_score 0
    searchMethod := jsOrStr row.search_method "unknown"
    semanticScore := row.semantic_similarity
    keywordScore := row.keyword_relevance }

/-- Result mapping of fallbackSearch (part_005 lines 229-239): fixed default
relevance 0.7 and the fallback_semantic method tag. -/
def mapFallbackRow (nowIso : String) (row : Row) : SearchResult :=
  { pageContent := jsOrStr row.content ""
    filename := jsOrStr row.filename "unknown_document.pdf"
    chunkIndex := jsOrNat row.chunk_index 0
    uploadedAt := jsOrStr row.uploaded_at nowIso
    relevanceScore := 0.7
    searchMethod := "fallback_semantic"
    semanticScore := none
    keywordScore := none }

/-- HybridRetriever.calculateWeights (part_005 lines 174-191): the
semantic/keyword split by category, 0.7/0.3 without an analysis. -/
def calculateWeights (analysis : Option QueryAnalysis) : ℚ × ℚ :=
  match analysis with
  | none => (0.7, 0.3)
  | some a =>
    match a.category with
    | .factual => (0.4, 0.6)
    | .conceptual => (0.8, 0.2)
    | .analytical => (0.6, 0.4)
    | .comparative => (0.7, 0.3)
    | .procedural => (0.5, 0.5)

/-- Outcome of one awaited datastore call: the await may throw, or the call
returns a record with an error field set, or it returns data (possibly null). -/
inductive CallOutcome (α : Type) where
  | threw
  | failed (err : String)
  | ok (data : Option α)
  deriving DecidableEq

/-- Outcomes of the external calls made during one hybridSearch request,
together with the wall-clock duration observed and the timestamp string used
for default upload dates.  The request payload (embedding vector, optimized
keyword string, strategy, match count) does not influence which branch the
source takes; each call site reads its outcome from this record. -/
structure RetrieverEnv where
  embedOutcome : Except String (List ℚ)
  rpcOutcome : CallOutcome (List Row)
  fallbackEmbedOutcome : Except String (List ℚ)
  selectOutcome : CallOutcome (List Row)
  elapsed : ℚ
  nowIso : String

/-- Metrics value returned when the fallback search itself fails (part_005
lines 254-264). -/
def failedMetrics (elapsed : ℚ) : SearchMetrics :=
  ⟨0, elapsed, "failed", 0, 0, false⟩

/-- HybridRetriever.fallbackSearch (part_005 lines 214-266): a pure semantic
query against the documents table; an embedding failure or a store error is
caught and produces the empty failed result instead of raising. -/
def fallbackSearch (env : RetrieverEnv) (query : String) (k : ℕ) :
    List SearchResult × SearchMetrics :=
  match env.fallbackEmbedOutcome with
  | .error _ => ([], failedMetrics env.elapsed)
  | .ok _ =>
    match env.selectOutcome with
    | .threw => ([], failedMetrics env.elapsed)
    | .failed _ => ([], failedMetrics env.elapsed)
    | .ok data =>
      let results := (data.getD []).map (mapFallbackRow env.nowIso)
      (results, ⟨results.length, env.elapsed, "fallback_semantic", 1, 0, false⟩)

/-- HybridRetriever.hybridSearch (part_005 lines 38-106): strategy and weights
are computed from the analysis; an embedding failure, a thrown rpc call or an
rpc error all divert to fallbackSearch; otherwise the rows are mapped and
returned with the metrics of the strategy used. -/
def hybridSearch (env : RetrieverEnv) (query : String)
    (analysis : Option QueryAnalysis) (k : ℕ) :
    List SearchResult × SearchMetrics :=
  let strategy := determineOptimalStrategy query analysis
  let w := calculateWeights analysis
  match env.embedOutcome with
  | .error _ => fallbackSearch env query k
  | .ok _ =>
    match env.rpcOutcome with
    | .threw => fallbackSearch env query k
    | .failed _ => fallbackSearch env query k
    | .ok data =>
      let results := (data.getD []).map (mapRow env.nowIso)
      (results, ⟨results.length, env.elapsed, strategy.name, w.1, w.2, analysis.isSome⟩)

/- ------------------------------------------------------------------ -/
/- Intelligent cache manager (src/backend/src/services/cacheManager.ts) -/
/- ------------------------------------------------------------------ -/

/-- Cache entry priority union type. -/
inductive Priority where
  | low
  | medium
  | high
  deriving DecidableEq

/-- CacheEntry record (src/backend/src/types/cacheTypes.ts): payload plus
creation timestamp, TTL, access statistics, tags and priority. -/
structure CacheEntry (α : Type) where
  key : String
  data : α
  timestamp : ℚ
  ttl : ℚ
  accessCount : ℕ
  lastAccessed : ℚ
  tags : List String
  priority : Priority
  deriving DecidableEq

/-- Payload of a query-cache entry; the analysis and raw search-result fields
of the source record are not read by any embedded function and are elided. -/
structure QueryCacheEntry where
  query : String
  response : String
  sources : List String
  responseTime : ℚ
  quality : ℚ
  deriving DecidableEq

/-- Payload of an embedding-cache entry. -/
structure EmbeddingCacheEntry where
  text : String
  embedding : List ℚ
  model : String
  deriving DecidableEq

/-- JavaScript Map.get: the first association for the key, if any. -/
def mapGet (m : List (String × α)) (k : String) : Option α :=
  (m.find? (fun p => p.1 == k)).map Prod.snd

/-- JavaScript Map.delete: drop every association for the key. -/
def mapDelete (m : List (String × α)) (k : String) : List (String × α) :=
  m.filter (fun p => p.1 != k)

/-- In-place mutation of the entry stored under a key. -/
def mapSet (m : List (String × α)) (k : String) (v : α) : List (String × α) :=
  m.map (fun p => if p.1 == k then (k, v) else p)

/-- Access-statistics update performed on every cache hit. -/
def touch (e : CacheEntry α) (now : ℚ) : CacheEntry α :=
  { e with accessCount := e.accessCount + 1, lastAccessed := now }

/-- IntelligentCacheManager.getCachedQueryResponse (cacheManager.ts lines
92-121): key is the hash of the lowercased trimmed query; a missing key is a
miss; an entry with now - timestamp > ttl is deleted and reported as a miss;
otherwise the entry is touched and its payload returned.  The md5 hash is
modelled as an abstract function. -/
def getCachedQueryResponse (hash : String → String)
    (cache : List (String × CacheEntry QueryCacheEntry)) (now : ℚ) (query : String) :
    Option QueryCacheEntry × List (String × CacheEntry QueryCacheEntry) :=
  let cacheKey := "query:" ++ hash (query.toLower.trim)
  match mapGet cache cacheKey with
  | none => (none, cache)
  | some entry =>
    if now - entry.timestamp > entry.ttl then
      (none, mapDelete cache cacheKey)
    else
      (some entry.data, mapSet cache cacheKey (touch entry now))

/-- IntelligentCacheManager.getCachedEmbedding (cacheManager.ts lines
153-178): a missing key or a model mismatch is a miss; only then is expiry
checked, deleting the entry on now - timestamp > ttl; otherwise the entry is
touched and its embedding returned. -/
def getCachedEmbedding (hash : String → String)
    (cache : List (String × CacheEntry EmbeddingCacheEntry)) (now : ℚ)
    (text model : String) :
    Option (List ℚ) × List (String × CacheEntry EmbeddingCacheEntry) :=
  let cacheKey := "embedding:" ++ hash text
  match mapGet cache cacheKey with
  | none => (none, cache)
  | some entry =>
    if entry.data.model ≠ model then
      (none, cache)
    else if now - entry.timestamp > entry.ttl then
      (none, mapDelete cache cacheKey)
    else
      (some entry.data.embedding, mapSet cache cacheKey (touch entry now))

/-- CacheConfig fields read by the embedded code. -/
structure CacheConfig where
  maxMemoryMB : ℚ
  defaultTTL : ℚ
  cleanupInterval : ℚ
  deriving DecidableEq

/-- Configuration of the exported cacheManager singleton (cacheManager.ts
lines 421-427): 256 MB ceiling, 12 hour base TTL, 5 minute sweep interval. -/
def cacheManagerConfig : CacheConfig :=
  ⟨256, 12 * 60 * 60 * 1000, 5 * 60 * 1000⟩

/-- IntelligentCacheManager.calculateDynamicTTL (cacheManager.ts lines
276-293): double the base TTL above quality 0.8, halve it below 0.5, grant a
further 1.5 factor below 3000 ms response time, and cap at 7 days. -/
def calculateDynamicTTL (defaultTTL quality responseTime : ℚ) : ℚ :=
  let ttl := defaultTTL
  let ttl := if quality > 0.8 then ttl * 2 else if quality < 0.5 then ttl * 0.5 else ttl
  let ttl := if responseTime < 3000 then ttl * 1.5 else ttl
  min ttl (7 * 24 * 60 * 60 * 1000)

/-- IntelligentCacheManager.calculatePriority (cacheManager.ts lines
295-299). -/
def calculatePriority (quality responseTime : ℚ) : Priority :=
  if quality > 0.8 ∧ responseTime < 5000 then .high
  else if quality > 0.6 ∧ responseTime < 10000 then .medium
  else .low

/-- Ordering of cache entries by last access time, used by the LRU pass. -/
def lastAccessedLe (a b : String × CacheEntry α) : Prop :=
  a.2.lastAccessed ≤ b.2.lastAccessed

instance : DecidableRel (@lastAccessedLe α) :=
  fun a b => inferInstanceAs (Decidable (a.2.lastAccessed ≤ b.2.lastAccessed))

instance : IsTotal (String × CacheEntry α) (@lastAccessedLe α) :=
  ⟨fun a b => le_total a.2.lastAccessed b.2.lastAccessed⟩

instance : IsTrans (String × CacheEntry α) (@lastAccessedLe α) :=
  ⟨fun _ _ _ hab hbc => le_trans hab hbc⟩

/-- The low-priority entries collected by performLRUEviction (cacheManager.ts
lines 371-379). -/
def lowEntries (cache : List (String × CacheEntry α)) : List (String × CacheEntry α) :=
  cache.filter (fun p => decide (p.2.priority = Priority.low))

/-- The collected low-priority entries sorted ascending by lastAccessed
(cacheManager.ts line 382); the JavaScript comparator sort is modelled by a
stable sort. -/
def sortedLowEntries (cache : List (String × CacheEntry α)) :
    List (String × CacheEntry α) :=
  (lowEntries cache).insertionSort lastAccessedLe

/-- Number of entries the LRU pass removes: 20 percent of the low-priority
entries, rounded up (cacheManager.ts line 385). -/
def lruEvictCount (cache : List (String × CacheEntry α)) : ℕ :=
  ⌈((lowEntries cache).length : ℚ) * 0.2⌉₊

/-- Keys of the least-recently-accessed 20 percent of low-priority entries. -/
def lruEvictKeys (cache : List (String × CacheEntry α)) : List String :=
  ((sortedLowEntries cache).take (lruEvictCount cache)).map Prod.fst

/-- IntelligentCacheManager.performLRUEviction (cacheManager.ts lines
371-395): delete the selected keys from the cache. -/
def performLRUEviction (cache : List (String × CacheEntry α)) :
    List (String × CacheEntry α) :=
  cache.filter (fun p => !decide (p.1 ∈ lruEvictKeys cache))

/-- IntelligentCacheManager.performCleanup (cacheManager.ts lines 341-369):
sweep out logically expired entries, then run the LRU pass only when memory
usage exceeds 90 percent of the configured ceiling. -/
def performCleanup (cache : List (String × CacheEntry α))
    (now memoryUsage maxMemoryMB : ℚ) : List (String × CacheEntry α) :=
  let swept := cache.filter (fun p => !decide (now - p.2.timestamp > p.2.ttl))
  if memoryUsage > maxMemoryMB * 0.9 then performLRUEviction swept else swept

/-- Sample expired embedding-cache entry used as concrete test data. -/
def sampleEmbeddingEntry : CacheEntry EmbeddingCacheEntry :=
  ⟨"embedding:t", ⟨"t", [1], "m1"⟩, 0, 5, 1, 0, [], .high⟩

/-- Sample expired query-cache entry used as concrete test data. -/
def sampleQueryEntry : CacheEntry QueryCacheEntry :=
  ⟨"query:h", ⟨"q", "answer", [], 100, 0.9⟩, 0, 5, 1, 0, [], .medium⟩

/-- Sample live high-priority query-cache entry used as concrete test data. -/
def sampleHighEntry : CacheEntry QueryCacheEntry :=
  ⟨"a", ⟨"q2", "answer2", [], 100, 0.9⟩, 0, 1000, 1, 50, [], .high⟩

/-- Sample environment in which both the primary search and the fallback
search fail, used as concrete test data. -/
def sampleFailEnv : RetrieverEnv :=
  ⟨Except.error "down", CallOutcome.threw, Except.error "down",
    CallOutcome.threw, 5, "now"⟩

/- ------------------------------------------------------------------ -/
/- Document clustering engine (responseQualityEvaluator.ts)            -/
/- ------------------------------------------------------------------ -/

/-- Dot product accumulated by the similarity loop (responseQualityEvaluator.ts
lines 1857-1865). -/
def dotProduct (vecA vecB : List ℚ) : ℚ :=
  (List.zipWith (fun x y => x * y) vecA vecB).sum

/-- Sum of squared components accumulated by the similarity loop. -/
def normSq (vec : List ℚ) : ℚ :=
  (vec.map (fun x => x * x)).sum

/-- DocumentClusteringService.calculateCosineSimilarity
(responseQualityEvaluator.ts lines 1854-1870): 0 for mismatched lengths or a
zero vector, otherwise the dot product divided by the product of magnitudes.
The value is real because square roots are taken. -/
noncomputable def calculateCosineSimilarity (vecA vecB : List ℚ) : ℝ :=
  if vecA.length ≠ vecB.length then 0
  else if normSq vecA = 0 ∨ normSq vecB = 0 then 0
  else ((dotProduct vecA vecB : ℚ) : ℝ)
    / (Real.sqrt ((normSq vecA : ℚ) : ℝ) * Real.sqrt ((normSq vecB : ℚ) : ℝ))

open Classical in
/-- DocumentClusteringService.findNearestCentroid (responseQualityEvaluator.ts
lines 1977-1990): fold over the centroid indices keeping the best similarity,
seeded with similarity -1 and cluster 0. -/
noncomputable def findNearestCentroid (embedding : List ℚ)
    (centroids : List (List ℚ)) : ℕ :=
  ((List.range centroids.length).foldl
    (fun acc i =>
      if calculateCosineSimilarity embedding (centroids.getD i []) > acc.1
      then (calculateCosineSimilarity embedding (centroids.getD i []), i)
      else acc)
    ((-1 : ℝ), (0 : ℕ))).2

/-- Single accumulation step of the centroid-update loop
(responseQualityEvaluator.ts lines 2002-2009): add the document embedding into
the row of its assigned cluster component-wise and bump that cluster count. -/
def updStep (acc : List (List ℚ) × List ℕ) (p : List ℚ × ℕ) :
    List (List ℚ) × List ℕ :=
  (acc.1.set p.2 (List.zipWith (fun x y => x + y) (acc.1.getD p.2 []) p.1),
   acc.2.set p.2 (acc.2.getD p.2 0 + 1))

/-- DocumentClusteringService.updateCentroids (responseQualityEvaluator.ts
lines 1992-2021): zero-initialised per-cluster sums and counts accumulated over
the documents paired with their assignments, then each row whose count is
positive divided component-wise by its count. -/
def updateCentroids (docs : List (List ℚ)) (assignments : List ℕ) (kk : ℕ) :
    List (List ℚ) :=
  let embeddingDim := (docs.headD []).length
  let acc := (docs.zip assignments).foldl updStep
    (List.replicate kk (List.replicate embeddingDim (0 : ℚ)), List.replicate kk 0)
  (List.range kk).map (fun i =>
    if 0 < acc.2.getD i 0 then
      (acc.1.getD i []).map (fun x => x / (acc.2.getD i 0 : ℚ))
    else acc.1.getD i [])

/-- The documents assigned to cluster i, in order. -/
def clusterMembers (docs : List (List ℚ)) (assignments : List ℕ) (i : ℕ) :
    List (List ℚ) :=
  ((docs.zip assignments).filter (fun p => p.2 = i)).map Prod.fst

open Classical in
/-- DocumentClusteringService.centroidsConverged (responseQualityEvaluator.ts
lines 2023-2035): false as soon as one old/new pair has 1 - similarity above
the tolerance, true otherwise. -/
noncomputable def centroidsConverged (oldCentroids newCentroids : List (List ℚ))
    (tolerance : ℝ) : Bool :=
  (List.range oldCentroids.length).all (fun i =>
    if 1 - calculateCosineSimilarity (oldCentroids.getD i [])
        (newCentroids.getD i []) > tolerance
    then false else true)

/-- One assignment-plus-update round of the k-means loop
(responseQualityEvaluator.ts lines 1894-1900). -/
noncomputable def nextCentroids (docs : List (List ℚ)) (kk : ℕ)
    (centroids : List (List ℚ)) : List (List ℚ) :=
  updateCentroids docs (docs.map (fun d => findNearestCentroid d centroids)) kk

/-- Iteration core of DocumentClusteringService.performKMeansClustering
(responseQualityEvaluator.ts lines 1893-1910), by remaining-iteration fuel:
each round assigns every document to its nearest centroid and recomputes the
centroids; on convergence the source breaks before adopting the new centroids,
so the pre-update centroids are returned.  The second component counts the
rounds executed. -/
noncomputable def kmeansIter (docs : List (List ℚ)) (kk : ℕ) :
    ℕ → List (List ℚ) → List (List ℚ) × ℕ
  | 0, centroids => (centroids, 0)
  | n + 1, centroids =>
    let newCentroids := nextCentroids docs kk centroids
    if centroidsConverged centroids newCentroids (1 / 1000) then (centroids, 1)
    else
      let r := kmeansIter docs kk n newCentroids
      (r.1, r.2 + 1)

/-- DocumentClusteringService.performKMeansClustering
(responseQualityEvaluator.ts lines 1880-1927): at most 20 rounds with
tolerance 0.001.  The randomized k-means++ seeding of the source is taken as
the initialCentroids parameter. -/
noncomputable def performKMeansClustering (docs : List (List ℚ)) (kk : ℕ)
    (initialCentroids : List (List ℚ)) : List (List ℚ) × ℕ :=
  kmeansIter docs kk 20 initialCentroids

/- ------------------------------------------------------------------ -/
/- Theorems                                                            -/
/- ------------------------------------------------------------------ -/

/-- C1 counterexample: the claim asserts that the section 4.1 decision table is
reproduced at both strategy-decision sites; QueryAnalyzer.determineSearchStrategy
violates it on an analytical simple single-document query, returning semantic
where the table demands hybrid. -/
theorem C1_counterexample :
    determineSearchStrategy ⟨.analytical, .simple, 0, [], false⟩ = .semantic
    ∧ specStrategyTable .analytical .simple false = .hybrid
    ∧ determineSearchStrategy ⟨.analytical, .simple, 0, [], false⟩
        ≠ specStrategyTable .analytical .simple false := by
  refine ⟨rfl, rfl, ?_⟩
  decide

/-- C1 amended: over the full 5 by 3 by 2 combination space,
HybridRetriever.determineOptimalStrategy (given a non-empty analysis) matches
the spec decision table exactly, while QueryAnalyzer.determineSearchStrategy
matches it exactly on the multi_step, complex, simple-factual and conceptual
rows and returns semantic (not hybrid) in every remaining case. -/
theorem C1_strategy_amended :
    ∀ (q : String) (c : Category) (x : Complexity) (m : Bool)
      (kw : List String) (conf : ℚ),
      determineOptimalStrategy q (some ⟨c, x, conf, kw, m⟩) = specStrategyTable c x m
      ∧ (determineSearchStrategy ⟨c, x, conf, kw, m⟩ = specStrategyTable c x m
          ↔ (m = true ∨ x = .complex ∨ (c = .factual ∧ x = .simple) ∨ c = .conceptual))
      ∧ (¬ (m = true ∨ x = .complex ∨ (c = .factual ∧ x = .simple) ∨ c = .conceptual)
          → determineSearchStrategy ⟨c, x, conf, kw, m⟩ = .semantic
            ∧ specStrategyTable c x m = .hybrid) := by
  intro q c x m kw conf
  cases c <;> cases x <;> cases m <;>
    simp [determineOptimalStrategy, determineSearchStrategy, specStrategyTable]

/-- C2: shouldCacheResponse is true exactly when the overall quality reaches
0.75 or the processing time reaches 5000 ms, with the three grid points of the
spec checked concretely. -/
theorem C2_shouldCacheResponse :
    (∀ (q : QualityScore) (t : ℚ),
        shouldCacheResponse q t = true ↔ (q.overall ≥ 0.75 ∨ t ≥ 5000))
    ∧ shouldCacheResponse (mkUniformScore 0.8) 1000 = true
    ∧ shouldCacheResponse (mkUniformScore 0.5) 6000 = true
    ∧ shouldCacheResponse (mkUniformScore 0.5) 1000 = false := by
  refine ⟨?_, ?_, ?_, ?_⟩
  · intro q t
    simp [shouldCacheResponse]
  · simp only [shouldCacheResponse, mkUniformScore, Bool.or_eq_true, decide_eq_true_eq]
    norm_num
  · simp only [shouldCacheResponse, mkUniformScore, Bool.or_eq_true, decide_eq_true_eq]
    norm_num
  · simp only [shouldCacheResponse, mkUniformScore, Bool.or_eq_false_iff,
      decide_eq_false_iff_not]
    norm_num

/-- Deleting a key from an association list makes lookups of that key miss. -/
theorem mapGet_mapDelete_self (m : List (String × α)) (k : String) :
    mapGet (mapDelete m k) k = none := by
  induction m with
  | nil => rfl
  | cons p t ih =>
    by_cases h : p.1 = k
    · simpa [mapDelete, h] using ih
    · simpa [mapDelete, mapGet, h] using ih

/-- C3: with the process-configured 12 hour base TTL, the dynamic TTL is the
base multiplied by 2 above quality 0.8, by 0.5 below quality 0.5, and by a
further 1.5 below 3000 ms response time, capped at 7 days; the sample chain
TTL(0.9, 1000) > TTL(0.9, 5000) > TTL(0.3, 5000) holds; the TTL is monotone
non-decreasing in quality, non-increasing in response time, and never exceeds
7 days in milliseconds for any base. -/
theorem C3_dynamicTTL :
    (∀ q t : ℚ, calculateDynamicTTL cacheManagerConfig.defaultTTL q t =
        min ((12 * 60 * 60 * 1000)
              * (if q > 0.8 then 2 else if q < 0.5 then 0.5 else 1)
              * (if t < 3000 then 1.5 else 1))
            (7 * 24 * 60 * 60 * 1000))
    ∧ calculateDynamicTTL cacheManagerConfig.defaultTTL 0.9 1000
        > calculateDynamicTTL cacheManagerConfig.defaultTTL 0.9 5000
    ∧ calculateDynamicTTL cacheManagerConfig.defaultTTL 0.9 5000
        > calculateDynamicTTL cacheManagerConfig.defaultTTL 0.3 5000
    ∧ (∀ q q' t : ℚ, q ≤ q' →
        calculateDynamicTTL cacheManagerConfig.defaultTTL q t
          ≤ calculateDynamicTTL cacheManagerConfig.defaultTTL q' t)
    ∧ (∀ q t t' : ℚ, t ≤ t' →
        calculateDynamicTTL cacheManagerConfig.defaultTTL q t'
          ≤ calculateDynamicTTL cacheManagerConfig.defaultTTL q t)
    ∧ (∀ defaultTTL q t : ℚ,
        calculateDynamicTTL defaultTTL q t ≤ 7 * 24 * 60 * 60 * 1000) := by
  have hform : ∀ defaultTTL q t : ℚ, calculateDynamicTTL defaultTTL q t =
      min (defaultTTL * (if q > 0.8 then 2 else if q < 0.5 then 0.5 else 1)
            * (if t < 3000 then 1.5 else 1)) (7 * 24 * 60 * 60 * 1000) := by
    intro defaultTTL q t
    unfold calculateDynamicTTL
    split_ifs <;> congr 1 <;> first | rfl | ring
  have hqmono : ∀ q q' : ℚ, q ≤ q' →
      (if q > 0.8 then (2 : ℚ) else if q < 0.5 then 0.5 else 1)
        ≤ (if q' > 0.8 then 2 else if q' < 0.5 then 0.5 else 1) := by
    intro q q' h
    split_ifs <;> linarith
  have hqnonneg : ∀ q : ℚ,
      (0 : ℚ) ≤ (if q > 0.8 then (2 : ℚ) else if q < 0.5 then 0.5 else 1) := by
    intro q
    split_ifs <;> norm_num
  have htanti : ∀ t t' : ℚ, t ≤ t' →
      (if t' < 3000 then (1.5 : ℚ) else 1) ≤ (if t < 3000 then 1.5 else 1) := by
    intro t t' h
    split_ifs <;> linarith
  have htnonneg : ∀ t : ℚ, (0 : ℚ) ≤ (if t < 3000 then (1.5 : ℚ) else 1) := by
    intro t
    split_ifs <;> norm_num
  have hD : cacheManagerConfig.defaultTTL = 12 * 60 * 60 * 1000 := rfl
  have hv1 : calculateDynamicTTL cacheManagerConfig.defaultTTL 0.9 1000
      = 129600000 := by
    rw [hform, hD, if_pos (by norm_num : (0.9 : ℚ) > 0.8),
      if_pos (by norm_num : (1000 : ℚ) < 3000), min_eq_left (by norm_num)]
    norm_num
  have hv2 : calculateDynamicTTL cacheManagerConfig.defaultTTL 0.9 5000
      = 86400000 := by
    rw [hform, hD, if_pos (by norm_num : (0.9 : ℚ) > 0.8),
      if_neg (by norm_num : ¬ (5000 : ℚ) < 3000), min_eq_left (by norm_num)]
    norm_num
  have hv3 : calculateDynamicTTL cacheManagerConfig.defaultTTL 0.3 5000
      = 21600000 := by
    rw [hform, hD, if_neg (by norm_num : ¬ (0.3 : ℚ) > 0.8),
      if_pos (by norm_num : (0.3 : ℚ) < 0.5),
      if_neg (by norm_num : ¬ (5000 : ℚ) < 3000), min_eq_left (by norm_num)]
    norm_num
  refine ⟨fun q t => by rw [hform, hD], ?_, ?_, ?_, ?_, ?_⟩
  · rw [hv1, hv2]; norm_num
  · rw [hv2, hv3]; norm_num
  · intro q q' t hq
    rw [hform, hform]
    refine min_le_min ?_ le_rfl
    exact mul_le_mul_of_nonneg_right
      (mul_le_mul_of_nonneg_left (hqmono q q' hq) (by rw [hD]; norm_num))
      (htnonneg t)
  · intro q t t' ht
    rw [hform, hform]
    refine min_le_min ?_ le_rfl
    exact mul_le_mul_of_nonneg_left (htanti t t' ht)
      (mul_nonneg (by rw [hD]; norm_num) (hqnonneg q))
  · intro defaultTTL q t
    rw [hform]
    exact min_le_right _ _

/-- C3 witness: monotonicity in quality applied at quality 0.3 versus 0.9 and
response time 5000, its hypothesis discharged concretely. -/
theorem C3_dynamicTTL_witness :
    calculateDynamicTTL cacheManagerConfig.defaultTTL 0.3 5000
      ≤ calculateDynamicTTL cacheManagerConfig.defaultTTL 0.9 5000 :=
  C3_dynamicTTL.2.2.2.1 0.3 0.9 5000 (by norm_num)

/-- C4 counterexample: an expired embedding-cache entry read through
getCachedEmbedding with a model name different from the stored one returns a
miss but is not deleted, contradicting the claim that every expired read
deletes the entry. -/
theorem C4_counterexample :
    (100 : ℚ) - sampleEmbeddingEntry.timestamp > sampleEmbeddingEntry.ttl
    ∧ mapGet [("embedding:t", sampleEmbeddingEntry)] ("embedding:" ++ id "t")
        = some sampleEmbeddingEntry
    ∧ (getCachedEmbedding id [("embedding:t", sampleEmbeddingEntry)] 100 "t" "m2").1
        = none
    ∧ (getCachedEmbedding id [("embedding:t", sampleEmbeddingEntry)] 100 "t" "m2").2
        = [("embedding:t", sampleEmbeddingEntry)] := by
  refine ⟨by norm_num [sampleEmbeddingEntry], rfl, rfl, rfl⟩

/-- C4 amended: an expired entry is never returned as a hit by either read
path; getCachedQueryResponse deletes the expired entry, and getCachedEmbedding
deletes it when the requested model matches the stored one, while a
mismatched-model read misses without touching the cache because the model
check precedes the expiry check. -/
theorem C4_expiry_amended :
    (∀ (hash : String → String) (cache : List (String × CacheEntry QueryCacheEntry))
        (now : ℚ) (query : String) (e : CacheEntry QueryCacheEntry),
        mapGet cache ("query:" ++ hash (query.toLower.trim)) = some e →
        now - e.timestamp > e.ttl →
          (getCachedQueryResponse hash cache now query).1 = none
          ∧ mapGet (getCachedQueryResponse hash cache now query).2
              ("query:" ++ hash (query.toLower.trim)) = none)
    ∧ (∀ (hash : String → String) (cache : List (String × CacheEntry EmbeddingCacheEntry))
        (now : ℚ) (text model : String) (e : CacheEntry EmbeddingCacheEntry),
        mapGet cache ("embedding:" ++ hash text) = some e →
        e.data.model = model →
        now - e.timestamp > e.ttl →
          (getCachedEmbedding hash cache now text model).1 = none
          ∧ mapGet (getCachedEmbedding hash cache now text model).2
              ("embedding:" ++ hash text) = none)
    ∧ (∀ (hash : String → String) (cache : List (String × CacheEntry EmbeddingCacheEntry))
        (now : ℚ) (text model : String) (e : CacheEntry EmbeddingCacheEntry),
        mapGet cache ("embedding:" ++ hash text) = some e →
        e.data.model ≠ model →
          (getCachedEmbedding hash cache now text model).1 = none
          ∧ (getCachedEmbedding hash cache now text model).2 = cache) := by
  refine ⟨?_, ?_, ?_⟩
  · intro hash cache now query e hget hexp
    simp only [getCachedQueryResponse, hget]
    rw [if_pos hexp]
    exact ⟨rfl, mapGet_mapDelete_self cache _⟩
  · intro hash cache now text model e hget hmodel hexp
    simp only [getCachedEmbedding, hget]
    rw [if_neg (fun hne => hne hmodel), if_pos hexp]
    exact ⟨rfl, mapGet_mapDelete_self cache _⟩
  · intro hash cache now text model e hget hmodel
    simp only [getCachedEmbedding, hget]
    rw [if_pos hmodel]
    exact ⟨rfl, rfl⟩

/-- C4 witness: the query-cache conjunct of the amended theorem applied to a
concrete one-entry cache read 100 ms after creation with a 5 ms TTL. -/
theorem C4_expiry_witness :
    (getCachedQueryResponse (fun _ => "h") [("query:h", sampleQueryEntry)] 100 "q").1
      = none
    ∧ mapGet
        (getCachedQueryResponse (fun _ => "h") [("query:h", sampleQueryEntry)] 100 "q").2
        ("query:h") = none :=
  C4_expiry_amended.1 (fun _ => "h") [("query:h", sampleQueryEntry)] 100 "q"
    sampleQueryEntry rfl (by norm_num [sampleQueryEntry])

/-- C8: the memory-pressure LRU pass removes only low-priority entries: with
key-unique caches every medium or high priority entry survives unchanged,
everything kept was already present, every removed entry had low priority, the
removal set is exactly the 20 percent (rounded up) of low-priority entries
least recently accessed, and the pass only runs when memory usage exceeds 90
percent of the configured ceiling. -/
theorem C8_lruEviction :
    (∀ cache : List (String × CacheEntry QueryCacheEntry),
      (cache.map Prod.fst).Nodup →
      ∀ p ∈ cache, p.2.priority ≠ Priority.low → p ∈ performLRUEviction cache)
    ∧ (∀ cache : List (String × CacheEntry QueryCacheEntry),
        ∀ p ∈ performLRUEviction cache, p ∈ cache)
    ∧ (∀ cache : List (String × CacheEntry QueryCacheEntry),
        (cache.map Prod.fst).Nodup →
        ∀ p ∈ cache, p ∉ performLRUEviction cache → p.2.priority = Priority.low)
    ∧ (∀ cache : List (String × CacheEntry QueryCacheEntry),
        (lruEvictKeys cache).length = ⌈((lowEntries cache).length : ℚ) * 0.2⌉₊)
    ∧ (∀ cache : List (String × CacheEntry QueryCacheEntry),
        ∀ a ∈ (sortedLowEntries cache).take (lruEvictCount cache),
        ∀ b ∈ (sortedLowEntries cache).drop (lruEvictCount cache),
          a.2.lastAccessed ≤ b.2.lastAccessed)
    ∧ (∀ (cache : List (String × CacheEntry QueryCacheEntry)) (now mem maxMB : ℚ),
        ¬ mem > maxMB * 0.9 →
        performCleanup cache now mem maxMB
          = cache.filter (fun p => !decide (now - p.2.timestamp > p.2.ttl))) := by
  have h1 : ∀ cache : List (String × CacheEntry QueryCacheEntry),
      (cache.map Prod.fst).Nodup →
      ∀ p ∈ cache, p.2.priority ≠ Priority.low → p ∈ performLRUEviction cache := by
    intro cache hnd p hp hprio
    rw [performLRUEviction, List.mem_filter]
    refine ⟨hp, ?_⟩
    simp only [Bool.not_eq_true', decide_eq_false_iff_not]
    intro hk
    rw [lruEvictKeys, List.mem_map] at hk
    obtain ⟨q, hqtake, hqkey⟩ := hk
    have hqsort : q ∈ sortedLowEntries cache := List.take_subset _ _ hqtake
    have hqlow : q ∈ lowEntries cache := by
      rw [sortedLowEntries, List.mem_insertionSort] at hqsort
      exact hqsort
    rw [lowEntries, List.mem_filter, decide_eq_true_eq] at hqlow
    have hpq : q = p :=
      List.inj_on_of_nodup_map hnd hqlow.1 hp hqkey
    exact hprio (hpq ▸ hqlow.2)
  refine ⟨h1, ?_, ?_, ?_, ?_, ?_⟩
  · intro cache p hp
    rw [performLRUEviction, List.mem_filter] at hp
    exact hp.1
  · intro cache hnd p hp hnot
    by_contra h
    exact hnot (h1 cache hnd p hp h)
  · intro cache
    rw [lruEvictKeys, List.length_map, List.length_take, lruEvictCount,
      sortedLowEntries, List.length_insertionSort]
    refine min_eq_left ?_
    rw [Nat.ceil_le]
    have hL : (0 : ℚ) ≤ ((lowEntries cache).length : ℚ) := by positivity
    linarith
  · intro cache a ha b hb
    have hs : (sortedLowEntries cache).Sorted (@lastAccessedLe QueryCacheEntry) :=
      List.sorted_insertionSort _ _
    exact hs.rel_of_mem_take_of_mem_drop ha hb
  · intro cache now mem maxMB h
    rw [performCleanup, if_neg h]

/-- C8 witness: the preservation conjunct applied to a one-entry cache holding
a high-priority entry, every hypothesis discharged concretely. -/
theorem C8_lruEviction_witness :
    ("a", sampleHighEntry) ∈ performLRUEviction [("a", sampleHighEntry)] :=
  C8_lruEviction.1 [("a", sampleHighEntry)] (by simp)
    ("a", sampleHighEntry) (by simp) (by decide)

/-- C9: the chosen cluster count follows the heuristic table (2 below 5
documents, 3 below 10, ceil of a quarter below 20, else a fifth rounded up and
capped at 10, the ceilings computed by natural division), and the document
counts 4, 9, 19, 50 give 2, 3, 5, 10. -/
theorem C9_clusterCount :
    (∀ n : ℕ, 2 ≤ n →
      determineOptimalClusterCount n =
        if n < 5 then 2
        else if n < 10 then 3
        else if n < 20 then (n + 3) / 4
        else min ((n + 4) / 5) 10)
    ∧ determineOptimalClusterCount 4 = 2
    ∧ determineOptimalClusterCount 9 = 3
    ∧ determineOptimalClusterCount 19 = 5
    ∧ determineOptimalClusterCount 50 = 10 := by
  have hceil : ∀ (a b : ℕ), 0 < b → ⌈(a : ℚ) / (b : ℚ)⌉₊ = (a + b - 1) / b := by
    intro a b hb
    apply le_antisymm
    · rw [Nat.ceil_le, div_le_iff₀ (by exact_mod_cast hb)]
      have h := Nat.div_add_mod (a + b - 1) b
      have hr : (a + b - 1) % b < b := Nat.mod_lt _ hb
      have hnat : a ≤ b * ((a + b - 1) / b) := by omega
      calc (a : ℚ) ≤ (((b * ((a + b - 1) / b)) : ℕ) : ℚ) := by exact_mod_cast hnat
        _ = (((a + b - 1) / b : ℕ) : ℚ) * (b : ℚ) := by push_cast; ring
    · have h1 : (a : ℚ) ≤ (b : ℚ) * (⌈(a : ℚ) / b⌉₊ : ℚ) := by
        have h2 := Nat.le_ceil ((a : ℚ) / b)
        rw [div_le_iff₀ (by exact_mod_cast hb)] at h2
        linarith
      have h3 : a ≤ b * ⌈(a : ℚ) / (b : ℚ)⌉₊ := by exact_mod_cast h1
      rw [Nat.div_le_iff_le_mul_add_pred hb]
      omega
  have hceil4 : ∀ a : ℕ, ⌈(a : ℚ) / 4⌉₊ = (a + 3) / 4 := by
    intro a
    have h := hceil a 4 (by norm_num)
    rw [show (((4 : ℕ) : ℚ)) = 4 by norm_num] at h
    rw [h]
    omega
  have hceil5 : ∀ a : ℕ, ⌈(a : ℚ) / 5⌉₊ = (a + 4) / 5 := by
    intro a
    have h := hceil a 5 (by norm_num)
    rw [show (((5 : ℕ) : ℚ)) = 5 by norm_num] at h
    rw [h]
    omega
  have htab : ∀ n : ℕ, 2 ≤ n →
      determineOptimalClusterCount n =
        if n < 5 then 2
        else if n < 10 then 3
        else if n < 20 then (n + 3) / 4
        else min ((n + 4) / 5) 10 := by
    intro n hn
    unfold determineOptimalClusterCount
    split_ifs with h5 h10 h20
    · rfl
    · rfl
    · rw [hceil4 n]
    · rw [hceil5 n]
  refine ⟨htab, ?_, ?_, ?_, ?_⟩ <;> rw [htab _ (by norm_num)] <;> norm_num

/-- C9 witness: the general table theorem applied at the concrete document
count 50, with its hypothesis discharged there. -/
theorem C9_clusterCount_witness :
    determineOptimalClusterCount 50 =
      if 50 < 5 then 2
      else if 50 < 10 then 3
      else if 50 < 20 then (50 + 3) / 4
      else min ((50 + 4) / 5) 10 :=
  C9_clusterCount.1 50 (by norm_num)


/-- The intended decision path of evaluateResponse: when the hash call does
not raise and the cached analysis is absent, a gateway invocation failure or a
parse failure still produces a shouldCache decision computed by the
shouldCacheResponse policy from the fallback quality score and the given
processing time; both fallback scores have overall below 0.75, so the
decision is true exactly when the processing time reaches 5000 ms. -/
theorem evaluateResponse_intended_policy :
    ∀ (env : EvalEnv) (t : ℚ),
      env.requireCryptoThrows = false →
      env.cachedAnalysis = none →
      env.ai = AIOutcome.invokeError ∨ env.ai = AIOutcome.parseFailure →
      (evaluateResponse env t).shouldCache
          = shouldCacheResponse (performAIEvaluation env.ai) t
      ∧ ((evaluateResponse env t).shouldCache = true ↔ t ≥ 5000) := by
  intro env t hreq hc hai
  have h1 : (evaluateResponse env t).shouldCache
      = shouldCacheResponse (performAIEvaluation env.ai) t := by
    simp only [evaluateResponse, hreq, hc]
    rfl
  have hov : (performAIEvaluation env.ai).overall < 0.75 := by
    rcases hai with h | h <;> rw [h]
    · norm_num [performAIEvaluation, createFallbackQualityScore]
    · have hpf : (performAIEvaluation AIOutcome.parseFailure).overall = 0.7 := by
        show clampScore (jsOr (some 0.7) none) = 0.7
        simp only [jsOr]
        rw [if_neg (by norm_num)]
        show max 0 (min 1 (0.7 : ℚ)) = 0.7
        rw [min_eq_right (by norm_num), max_eq_right (by norm_num)]
      rw [hpf]
      norm_num
  refine ⟨h1, ?_⟩
  rw [h1]
  simp only [shouldCacheResponse, Bool.or_eq_true, decide_eq_true_eq]
  constructor
  · rintro (h | h)
    · linarith
    · exact h
  · intro h
    exact Or.inr h

/-- C5: under the ES-module backend runtime the require call inside
generateEvaluationHash raises on every invocation, so every evaluateResponse
call lands in the outer catch and returns the fixed 0.7 fallback evaluation
with shouldCache false, for every environment and processing time; in
particular at processing time 6000 ms the returned decision is false although
the shouldCacheResponse policy on the catch fallback score demands true,
contradicting the claim. -/
theorem C5_esmCatch_divergence :
    (∀ (c : Option RawScore) (a : AIOutcome) (t : ℚ),
        evaluateResponse ⟨true, c, a⟩ t = ⟨catchFallbackScore, false⟩)
    ∧ (evaluateResponse ⟨true, none, AIOutcome.invokeError⟩ 6000).shouldCache = false
    ∧ shouldCacheResponse catchFallbackScore 6000 = true
    ∧ (evaluateResponse ⟨true, none, AIOutcome.invokeError⟩ 6000).shouldCache
        ≠ shouldCacheResponse catchFallbackScore 6000 := by
  have hall : ∀ (c : Option RawScore) (a : AIOutcome) (t : ℚ),
      evaluateResponse ⟨true, c, a⟩ t = ⟨catchFallbackScore, false⟩ := by
    intro c a t
    rfl
  have hpol : shouldCacheResponse catchFallbackScore 6000 = true := by
    simp only [shouldCacheResponse, Bool.or_eq_true, decide_eq_true_eq]
    right
    norm_num
  refine ⟨hall, by rw [hall], hpol, ?_⟩
  rw [hall, hpol]
  simp

/-- C10: validateQualityScore does not preserve a legitimate zero score: a
lowercase dimension field holding 0 with the capitalised alternate absent
falls through the falsy-or chain and clampScore turns the missing value into
the default 0.5, so the returned dimension can never be 0. -/
theorem C10_zeroScoreFalsy :
    ∀ s : RawScore, s.overall = some 0 → s.Overall = none →
      (validateQualityScore (some s)).overall = 0.5
      ∧ (validateQualityScore (some s)).overall ≠ 0 := by
  intro s h0 hcap
  have h : (validateQualityScore (some s)).overall = 0.5 := by
    show clampScore (jsOr s.overall s.Overall) = 0.5
    rw [h0, hcap]
    simp only [jsOr, if_true]
    rfl
  exact ⟨h, by rw [h]; norm_num⟩

/-- C10 witness: the theorem applied to the concrete parsed object carrying a
lone overall field with value 0. -/
theorem C10_zeroScoreFalsy_witness :
    (validateQualityScore (some { overall := some 0 })).overall = 0.5
    ∧ (validateQualityScore (some { overall := some 0 })).overall ≠ 0 :=
  C10_zeroScoreFalsy { overall := some 0 } rfl rfl

/-- C7: hybridSearch is a total function of its environment (thrown exceptions
of the source are absorbed at every call site): an embedding failure, a thrown
rpc call or an rpc error each divert the call to fallbackSearch, and when the
fallback also fails (embedding failure, thrown select or select error) the
result is the empty list with the failed strategy tag, zero total results and
zero weights. -/
theorem C7_hybridSearch_neverThrows :
    ∀ (env : RetrieverEnv) (query : String) (analysis : Option QueryAnalysis) (k : ℕ),
      (∀ e, env.embedOutcome = Except.error e →
        hybridSearch env query analysis k = fallbackSearch env query k)
      ∧ (env.rpcOutcome = CallOutcome.threw →
        hybridSearch env query analysis k = fallbackSearch env query k)
      ∧ (∀ err, env.rpcOutcome = CallOutcome.failed err →
        hybridSearch env query analysis k = fallbackSearch env query k)
      ∧ (∀ e, env.fallbackEmbedOutcome = Except.error e →
        fallbackSearch env query k = ([], failedMetrics env.elapsed))
      ∧ (env.selectOutcome = CallOutcome.threw →
        fallbackSearch env query k = ([], failedMetrics env.elapsed))
      ∧ (∀ err, env.selectOutcome = CallOutcome.failed err →
        fallbackSearch env query k = ([], failedMetrics env.elapsed))
      ∧ (failedMetrics env.elapsed).strategy = "failed"
      ∧ (failedMetrics env.elapsed).totalResults = 0
      ∧ (failedMetrics env.elapsed).semanticWeight = 0
      ∧ (failedMetrics env.elapsed).keywordWeight = 0 := by
  intro env query analysis k
  refine ⟨?_, ?_, ?_, ?_, ?_, ?_, rfl, rfl, rfl, rfl⟩
  · intro e he
    simp only [hybridSearch, he]
  · intro h
    cases hemb : env.embedOutcome <;> simp only [hybridSearch, hemb, h]
  · intro err h
    cases hemb : env.embedOutcome <;> simp only [hybridSearch, hemb, h]
  · intro e he
    simp only [fallbackSearch, he]
  · intro h
    cases hfe : env.fallbackEmbedOutcome <;> simp only [fallbackSearch, hfe, h]
  · intro err h
    cases hfe : env.fallbackEmbedOutcome <;> simp only [fallbackSearch, hfe, h]

/-- C7 witness: the theorem applied to the concrete doubly-failing
environment, hypotheses discharged there: the primary search falls back, and
the fallback returns the empty failed result. -/
theorem C7_hybridSearch_witness :
    hybridSearch sampleFailEnv "q" none 6 = fallbackSearch sampleFailEnv "q" 6
    ∧ fallbackSearch sampleFailEnv "q" 6 = ([], failedMetrics sampleFailEnv.elapsed) :=
  ⟨(C7_hybridSearch_neverThrows sampleFailEnv "q" none 6).1 "down" rfl,
   (C7_hybridSearch_neverThrows sampleFailEnv "q" none 6).2.2.2.1 "down" rfl⟩


/-- getD of set at the written index. -/
theorem getD_set_self (l : List α) (i : ℕ) (a d : α) (h : i < l.length) :
    (l.set i a).getD i d = a := by
  rw [List.getD_eq_getElem _ _ (by simpa using h)]
  simp

/-- getD of set at a different index. -/
theorem getD_set_ne (l : List α) (i j : ℕ) (a d : α) (h : i ≠ j) :
    (l.set i a).getD j d = l.getD j d := by
  by_cases hj : j < l.length
  · rw [List.getD_eq_getElem _ _ (by simpa using hj), List.getD_eq_getElem _ _ hj]
    exact List.getElem_set_ne h _
  · rw [List.getD_eq_default _ _ (by simpa using Nat.le_of_not_lt hj),
      List.getD_eq_default _ _ (Nat.le_of_not_lt hj)]

/-- getD of replicate at an in-range index. -/
theorem getD_replicate_self (n i : ℕ) (a d : α) (h : i < n) :
    (List.replicate n a).getD i d = a := by
  rw [List.getD_eq_getElem _ _ (by simpa using h)]
  simp

/-- Component of the zipWith sum of two sufficiently long vectors. -/
theorem getD_zipWith_add (u v : List ℚ) (j : ℕ) (hu : j < u.length)
    (hv : j < v.length) :
    (List.zipWith (fun x y => x + y) u v).getD j 0 = u.getD j 0 + v.getD j 0 := by
  have hz : j < (List.zipWith (fun x y : ℚ => x + y) u v).length := by
    rw [List.length_zipWith]
    omega
  rw [List.getD_eq_getElem _ _ hz, List.getD_eq_getElem _ _ hu,
    List.getD_eq_getElem _ _ hv]
  simp

/-- getD of a mapped range at an in-range index. -/
theorem getD_map_range (n i : ℕ) (f : ℕ → List ℚ) (h : i < n) :
    ((List.range n).map f).getD i [] = f i := by
  rw [List.getD_eq_getElem _ _ (by simpa using h)]
  simp

/-- getD of a division-mapped row at an in-range index. -/
theorem getD_map_div (l : List ℚ) (c : ℚ) (j : ℕ) (h : j < l.length) :
    (l.map (fun x => x / c)).getD j 0 = l.getD j 0 / c := by
  rw [List.getD_eq_getElem _ _ (by simpa using h), List.getD_eq_getElem _ _ h]
  simp

/-- Invariant of the accumulation fold inside updateCentroids: for a fixed
cluster index, lengths are preserved, the count grows by the number of pairs
assigned to that cluster, and each row component grows by the sum of the
corresponding embedding components of those pairs. -/
theorem updStep_foldl_spec (l : List (List ℚ × ℕ)) :
    ∀ (S : List (List ℚ)) (C : List ℕ) (dim i : ℕ),
      i < S.length → C.length = S.length →
      (S.getD i []).length = dim →
      (∀ p ∈ l, p.1.length = dim) →
      (∀ p ∈ l, p.2 < S.length) →
      (l.foldl updStep (S, C)).1.length = S.length
      ∧ (l.foldl updStep (S, C)).2.length = C.length
      ∧ ((l.foldl updStep (S, C)).1.getD i []).length = dim
      ∧ ((l.foldl updStep (S, C)).2.getD i 0
          = C.getD i 0 + (l.filter (fun p => p.2 = i)).length)
      ∧ (∀ j, j < dim →
          ((l.foldl updStep (S, C)).1.getD i []).getD j 0
            = (S.getD i []).getD j 0
              + ((l.filter (fun p => p.2 = i)).map (fun p => p.1.getD j 0)).sum) := by
  induction l with
  | nil =>
    intro S C dim i hi hC hrow hdim hvalid
    refine ⟨rfl, rfl, hrow, by simp, ?_⟩
    intro j hj
    simp
  | cons p t ih =>
    intro S C dim i hi hC hrow hdim hvalid
    have hp1 : p.1.length = dim := hdim p (List.mem_cons_self p t)
    have hp2 : p.2 < S.length := hvalid p (List.mem_cons_self p t)
    have hfold : (p :: t).foldl updStep (S, C) = t.foldl updStep (updStep (S, C) p) := rfl
    have hS1len : (updStep (S, C) p).1.length = S.length := by
      simp [updStep]
    have hC1len : (updStep (S, C) p).2.length = C.length := by
      simp [updStep]
    have hdim1 : ∀ q ∈ t, q.1.length = dim :=
      fun q hq => hdim q (List.mem_cons_of_mem p hq)
    have hvalid1 : ∀ q ∈ t, q.2 < (updStep (S, C) p).1.length := by
      intro q hq
      rw [hS1len]
      exact hvalid q (List.mem_cons_of_mem p hq)
    by_cases hcase : p.2 = i
    · subst hcase
      have hrowset : (updStep (S, C) p).1.getD p.2 []
          = List.zipWith (fun x y => x + y) (S.getD p.2 []) p.1 := by
        simp only [updStep]
        exact getD_set_self _ _ _ _ hp2
      have hcntset : (updStep (S, C) p).2.getD p.2 0 = C.getD p.2 0 + 1 := by
        simp only [updStep]
        exact getD_set_self _ _ _ _ (by omega)
      have hrow1 : ((updStep (S, C) p).1.getD p.2 []).length = dim := by
        rw [hrowset, List.length_zipWith, hrow, hp1]
        omega
      have hi1 : p.2 < (updStep (S, C) p).1.length := by rw [hS1len]; exact hp2
      have hC1 : (updStep (S, C) p).2.length = (updStep (S, C) p).1.length := by
        rw [hS1len, hC1len, hC]
      obtain ⟨ha, hb, hc, hd, he⟩ :=
        ih (updStep (S, C) p).1 (updStep (S, C) p).2 dim p.2 hi1 hC1 hrow1 hdim1 hvalid1
      have hfilter : (p :: t).filter (fun q => q.2 = p.2)
          = p :: t.filter (fun q => q.2 = p.2) := by
        simp [List.filter_cons]
      refine ⟨?_, ?_, ?_, ?_, ?_⟩
      · rw [hfold, ha, hS1len]
      · rw [hfold, hb, hC1len]
      · rw [hfold]
        exact hc
      · rw [hfold, hd, hcntset, hfilter]
        simp
        omega
      · intro j hj
        rw [hfold, he j hj, hrowset,
          getD_zipWith_add _ _ j (by omega) (by omega), hfilter]
        simp
        ring
    · have hrowset : (updStep (S, C) p).1.getD i [] = S.getD i [] := by
        simp only [updStep]
        exact getD_set_ne _ _ _ _ _ hcase
      have hcntset : (updStep (S, C) p).2.getD i 0 = C.getD i 0 := by
        simp only [updStep]
        exact getD_set_ne _ _ _ _ _ hcase
      have hrow1 : ((updStep (S, C) p).1.getD i []).length = dim := by
        rw [hrowset]
        exact hrow
      have hi1 : i < (updStep (S, C) p).1.length := by rw [hS1len]; exact hi
      have hC1 : (updStep (S, C) p).2.length = (updStep (S, C) p).1.length := by
        rw [hS1len, hC1len, hC]
      obtain ⟨ha, hb, hc, hd, he⟩ :=
        ih (updStep (S, C) p).1 (updStep (S, C) p).2 dim i hi1 hC1 hrow1 hdim1 hvalid1
      have hfilter : (p :: t).filter (fun q => q.2 = i)
          = t.filter (fun q => q.2 = i) := by
        simp [List.filter_cons, hcase]
      refine ⟨?_, ?_, ?_, ?_, ?_⟩
      · rw [hfold, ha, hS1len]
      · rw [hfold, hb, hC1len]
      · rw [hfold]
        exact hc
      · rw [hfold, hd, hcntset, hfilter]
      · intro j hj
        rw [hfold, he j hj, hrowset, hfilter]


/-- Each non-empty cluster row produced by updateCentroids is the
component-wise arithmetic mean of the embeddings assigned to that cluster. -/
theorem updateCentroids_mean :
    ∀ (docs : List (List ℚ)) (assignments : List ℕ) (kk dim i : ℕ),
      docs ≠ [] →
      (∀ d ∈ docs, d.length = dim) →
      (∀ a ∈ assignments, a < kk) →
      i < kk →
      clusterMembers docs assignments i ≠ [] →
      ∀ j, j < dim →
        ((updateCentroids docs assignments kk).getD i []).getD j 0
          = ((clusterMembers docs assignments i).map (fun m => m.getD j 0)).sum
            / ((clusterMembers docs assignments i).length : ℚ) := by
  intro docs assignments kk dim i hne hdim hvalid hik hmem j hj
  have hdim0 : (docs.headD []).length = dim := by
    cases docs with
    | nil => exact absurd rfl hne
    | cons d t => exact hdim d (List.mem_cons_self d t)
  have hzip1 : ∀ p ∈ docs.zip assignments, (p : List ℚ × ℕ).1.length = dim := by
    intro p hp
    rcases p with ⟨a, b⟩
    exact hdim a (List.of_mem_zip hp).1
  have hzip2 : ∀ p ∈ docs.zip assignments,
      (p : List ℚ × ℕ).2 < (List.replicate kk (List.replicate dim (0 : ℚ))).length := by
    intro p hp
    rcases p with ⟨a, b⟩
    simpa using hvalid b (List.of_mem_zip hp).2
  obtain ⟨ha, hb, hc, hd, he⟩ := updStep_foldl_spec (docs.zip assignments)
    (List.replicate kk (List.replicate dim (0 : ℚ))) (List.replicate kk 0) dim i
    (by simpa using hik) (by simp)
    (by rw [getD_replicate_self kk i _ _ hik]; simp)
    hzip1 hzip2
  have hbridge : (updateCentroids docs assignments kk).getD i []
      = (if 0 < ((docs.zip assignments).foldl updStep
            (List.replicate kk (List.replicate dim (0 : ℚ)),
              List.replicate kk 0)).2.getD i 0
         then (((docs.zip assignments).foldl updStep
            (List.replicate kk (List.replicate dim (0 : ℚ)),
              List.replicate kk 0)).1.getD i []).map
            (fun x => x / (((docs.zip assignments).foldl updStep
              (List.replicate kk (List.replicate dim (0 : ℚ)),
                List.replicate kk 0)).2.getD i 0 : ℚ))
         else ((docs.zip assignments).foldl updStep
            (List.replicate kk (List.replicate dim (0 : ℚ)),
              List.replicate kk 0)).1.getD i []) := by
    simp only [updateCentroids, hdim0]
    exact getD_map_range kk i _ hik
  set F := (docs.zip assignments).foldl updStep
    (List.replicate kk (List.replicate dim (0 : ℚ)), List.replicate kk 0) with hF
  have hcnt : F.2.getD i 0
      = ((docs.zip assignments).filter (fun p => p.2 = i)).length := by
    rw [hd, getD_replicate_self kk i _ _ hik]
    omega
  have hmemlen : (clusterMembers docs assignments i).length
      = ((docs.zip assignments).filter (fun p => p.2 = i)).length := by
    simp [clusterMembers]
  have hmemsum : ((clusterMembers docs assignments i).map (fun m => m.getD j 0)).sum
      = (((docs.zip assignments).filter (fun p => p.2 = i)).map
          (fun p => p.1.getD j 0)).sum := by
    simp only [clusterMembers, List.map_map]
    rfl
  have hpos : 0 < F.2.getD i 0 := by
    rw [hcnt, ← hmemlen]
    exact List.length_pos.mpr hmem
  have hjlen : j < (F.1.getD i []).length := by
    rw [hc]
    exact hj
  have hcomp : (F.1.getD i []).getD j 0
      = (((docs.zip assignments).filter (fun p => p.2 = i)).map
          (fun p => p.1.getD j 0)).sum := by
    rw [he j hj, getD_replicate_self kk i _ _ hik, getD_replicate_self dim j _ _ hj]
    ring
  rw [hbridge, if_pos hpos, getD_map_div _ _ j hjlen, hcomp, hcnt, hmemsum, hmemlen]


/-- centroidsConverged holds exactly when every old/new pair is within the
tolerance with a non-strict inequality: the source returns false only when
1 - similarity strictly exceeds the tolerance. -/
theorem centroidsConverged_iff (oldCentroids newCentroids : List (List ℚ))
    (tol : ℝ) :
    centroidsConverged oldCentroids newCentroids tol = true
      ↔ ∀ i < oldCentroids.length,
          1 - calculateCosineSimilarity (oldCentroids.getD i [])
            (newCentroids.getD i []) ≤ tol := by
  rw [centroidsConverged, List.all_eq_true]
  constructor
  · intro h i hi
    have h2 := h i (List.mem_range.mpr hi)
    by_contra hgt
    rw [if_pos (not_le.mp hgt)] at h2
    simp at h2
  · intro h i hi
    rw [if_neg (not_lt.mpr (h i (List.mem_range.mp hi)))]

/-- The iteration core never executes more rounds than its fuel. -/
theorem kmeansIter_le :
    ∀ (n : ℕ) (docs : List (List ℚ)) (kk : ℕ) (cs : List (List ℚ)),
      (kmeansIter docs kk n cs).2 ≤ n := by
  intro n
  induction n with
  | zero =>
    intro docs kk cs
    simp [kmeansIter]
  | succ n ihn =>
    intro docs kk cs
    simp only [kmeansIter]
    split
    · simp
    · simpa using Nat.succ_le_succ (ihn docs kk (nextCentroids docs kk cs))

/-- A converged round stops the loop at once, returning the pre-update
centroids. -/
theorem kmeansIter_stop :
    ∀ (docs : List (List ℚ)) (kk n : ℕ) (cs : List (List ℚ)),
      centroidsConverged cs (nextCentroids docs kk cs) (1 / 1000) = true →
      kmeansIter docs kk (n + 1) cs = (cs, 1) := by
  intro docs kk n cs h
  simp only [kmeansIter]
  split
  · rfl
  · next h2 => exact absurd h h2

/-- A non-converged round continues with the freshly computed centroids. -/
theorem kmeansIter_step :
    ∀ (docs : List (List ℚ)) (kk n : ℕ) (cs : List (List ℚ)),
      centroidsConverged cs (nextCentroids docs kk cs) (1 / 1000) = false →
      kmeansIter docs kk (n + 1) cs
        = ((kmeansIter docs kk n (nextCentroids docs kk cs)).1,
           (kmeansIter docs kk n (nextCentroids docs kk cs)).2 + 1) := by
  intro docs kk n cs h
  simp only [kmeansIter]
  split
  · next h2 =>
      rw [h] at h2
      exact absurd h2 (by simp)
  · rfl

/-- The boundary cosine value: these two five-dimensional integer vectors have
cosine similarity exactly 999/1000, so 1 - similarity is exactly the 0.001
tolerance. -/
theorem cos_boundary :
    calculateCosineSimilarity [999, 43, 10, 7, 1] [1000, 0, 0, 0, 0]
      = 999 / 1000 := by
  have hdot : dotProduct [999, 43, 10, 7, 1] [1000, 0, 0, 0, 0] = 999000 := by
    norm_num [dotProduct]
  have hnA : normSq [999, 43, 10, 7, 1] = 1000000 := by norm_num [normSq]
  have hnB : normSq [1000, 0, 0, 0, 0] = 1000000 := by norm_num [normSq]
  rw [calculateCosineSimilarity, if_neg (by decide),
    if_neg (by rw [hnA, hnB]; norm_num), hdot, hnA, hnB]
  have hsq : Real.sqrt (((1000000 : ℚ) : ℝ)) = 1000 := by
    rw [show (((1000000 : ℚ)) : ℝ) = (1000 : ℝ) ^ 2 by norm_num]
    exact Real.sqrt_sq (by norm_num)
  rw [hsq]
  norm_num

/-- C6 counterexample: the loop stop condition accepts a pair at exactly
1 - similarity = 0.001, where the claimed strict inequality fails; a concrete
one-document run with these centroids stops in its first round. -/
theorem C6_counterexample :
    centroidsConverged [[999, 43, 10, 7, 1]] [[1000, 0, 0, 0, 0]] (1 / 1000) = true
    ∧ ¬ (1 - calculateCosineSimilarity [999, 43, 10, 7, 1] [1000, 0, 0, 0, 0]
          < 1 / 1000)
    ∧ kmeansIter [[1000, 0, 0, 0, 0]] 1 20 [[999, 43, 10, 7, 1]]
        = ([[999, 43, 10, 7, 1]], 1) := by
  have hfind : findNearestCentroid [1000, 0, 0, 0, 0] [[999, 43, 10, 7, 1]] = 0 := by
    rw [findNearestCentroid]
    rw [show List.range ([[999, 43, 10, 7, 1]] : List (List ℚ)).length = [0] from by
      simp [List.range_succ]]
    simp only [List.foldl_cons, List.foldl_nil]
    split
    · rfl
    · rfl
  have hnext : nextCentroids [[1000, 0, 0, 0, 0]] 1 [[999, 43, 10, 7, 1]]
      = [[1000, 0, 0, 0, 0]] := by
    rw [nextCentroids]
    rw [show List.map (fun d => findNearestCentroid d [[999, 43, 10, 7, 1]])
        [[1000, 0, 0, 0, 0]] = [0] from by simp [hfind]]
    simp [updateCentroids, updStep, List.replicate_succ, List.range_succ]
  have hconv : centroidsConverged [[999, 43, 10, 7, 1]] [[1000, 0, 0, 0, 0]]
      (1 / 1000) = true := by
    rw [centroidsConverged_iff]
    intro i hi
    have hi0 : i = 0 := by simpa using hi
    subst hi0
    simp only [List.getD_cons_zero]
    rw [cos_boundary]
    norm_num
  refine ⟨hconv, ?_, ?_⟩
  · rw [cos_boundary]
    norm_num
  · exact kmeansIter_stop [[1000, 0, 0, 0, 0]] 1 19 [[999, 43, 10, 7, 1]]
      (by rw [hnext]; exact hconv)

/-- C6 amended: the k-means loop executes at most 20 assignment/update rounds;
each round recomputes every non-empty cluster centroid as the component-wise
arithmetic mean of its member embeddings (not re-normalized); the loop stops
early exactly when every old/new centroid pair satisfies
1 - cosine_similarity LE 0.001 (non-strict: the source only rejects strict
excess over the tolerance). -/
theorem C6_kmeans_amended :
    (∀ (docs : List (List ℚ)) (kk : ℕ) (init : List (List ℚ)),
        (performKMeansClustering docs kk init).2 ≤ 20)
    ∧ (∀ (docs : List (List ℚ)) (assignments : List ℕ) (kk dim i : ℕ),
        docs ≠ [] →
        (∀ d ∈ docs, d.length = dim) →
        (∀ a ∈ assignments, a < kk) →
        i < kk →
        clusterMembers docs assignments i ≠ [] →
        ∀ j, j < dim →
          ((updateCentroids docs assignments kk).getD i []).getD j 0
            = ((clusterMembers docs assignments i).map (fun m => m.getD j 0)).sum
              / ((clusterMembers docs assignments i).length : ℚ))
    ∧ (∀ (oldCentroids newCentroids : List (List ℚ)) (tol : ℝ),
        centroidsConverged oldCentroids newCentroids tol = true
          ↔ ∀ i < oldCentroids.length,
              1 - calculateCosineSimilarity (oldCentroids.getD i [])
                (newCentroids.getD i []) ≤ tol)
    ∧ (∀ (docs : List (List ℚ)) (kk n : ℕ) (cs : List (List ℚ)),
        centroidsConverged cs (nextCentroids docs kk cs) (1 / 1000) = true →
        kmeansIter docs kk (n + 1) cs = (cs, 1))
    ∧ (∀ (docs : List (List ℚ)) (kk n : ℕ) (cs : List (List ℚ)),
        centroidsConverged cs (nextCentroids docs kk cs) (1 / 1000) = false →
        kmeansIter docs kk (n + 1) cs
          = ((kmeansIter docs kk n (nextCentroids docs kk cs)).1,
             (kmeansIter docs kk n (nextCentroids docs kk cs)).2 + 1)) :=
  ⟨fun docs kk init => kmeansIter_le 20 docs kk init,
   updateCentroids_mean, centroidsConverged_iff, kmeansIter_stop, kmeansIter_step⟩

/-- C6 witness: the mean conjunct applied to two concrete two-dimensional
documents both assigned to cluster 0, every hypothesis discharged there. -/
theorem C6_kmeans_witness :
    ((updateCentroids [[1, 2], [3, 4]] [0, 0] 1).getD 0 []).getD 0 0
      = ((clusterMembers [[1, 2], [3, 4]] [0, 0] 0).map (fun m => m.getD 0 0)).sum
        / ((clusterMembers [[1, 2], [3, 4]] [0, 0] 0).length : ℚ) :=
  C6_kmeans_amended.2.1 [[1, 2], [3, 4]] [0, 0] 1 2 0 (by decide) (by decide)
    (by decide) (by decide) (by decide) 0 (by decide)

end AiPdfRag
